import Mathlib

/-!
Shallow embedding of the PDO/RDO codec of lsucpd (src/src/lsucpd.cpp).

The embedding translates, from the source:
  - the field-name table `pdo_str[]`;
  - the 67-row descriptor table `pdo_part_a[]` of `struct do_fld_desc_t`
    rows with the flag bits `P_IT_FL_START/SINK/SRC/CONT` packed into
    `num_bits_typ`;
  - the decoder loops of `pdo2str` and `rdo2str` (each loop is modelled as
    producing the list of decoded fields; the source appends the same
    per-field text to one output string, so the list is the sequence of
    appended pieces);
  - the start-index maps `pdo_part_map[]` / `rdo_part_map[]` and the
    variant switches of `pdo2str`, `rdo2str` and `do_rdo_opt`;
  - the attribute readers `get_millivolts`/`get_milliamps`/
    `get_milliwatts`/`get_unitless` (all four call `sscanf` with a
    `"%u..."` format; `sscanf` returns the count of *assigned*
    conversions, and trailing literal suffix characters are matched but
    never assigned, so the four readers return the value converted from
    the leading optionally-signed decimal number — a `-` sign wraps in
    the 32-bit unsigned type — or 0 when no conversion occurs);
  - the encoder `build_raw_pdo` from the map check onward (the sysfs
    directory scan that fills the map is I/O and out of scope).

Machine integers are Nat with explicit `% 65536` where the source uses
uint16 arithmetic; all uint32 quantities stay below 2 ^ 32 by
construction and theorems carry that bound where it matters.
-/

namespace Lsucpd

/-- Field-name table `pdo_str[]` from lsucpd.cpp (30 entries). -/
def pdo_str : List String :=
  ["dual_role_power",                  -- 0
   "usb_suspend_supported",
   "unconstrained_power",
   "usb_communication_capable",
   "unchunked_message_supported",      -- 4
   "epr_mode_supported",
   "higher_capability",
   "fast_role_swap",
   "peak_current",                     -- 8
   "voltage",
   "maximum_current",
   "operational_current",
   "maximum_voltage",                  -- 12
   "minimum_voltage",
   "pps_power_limited",
   "dual_role_data",
   "maximum_power",                    -- 16
   "operational_power",
   "pd_power",
   "object_position",
   "giveback_flag",                    -- 20
   "capability_mismatch",
   "no_usb_suspend",
   "operating_current",
   "maximum_operating_current",        -- 24
   "minimum_operating_current",
   "operating_power",
   "maximum_operating_power",
   "minimum_operating_power",          -- 28
   "output_voltage"]

/-- Indexing into `pdo_str[]` (in-range in every table row). -/
def pdo_str_at (i : Nat) : String := pdo_str.getD i ""

/-- One row of `pdo_part_a[]`: C `struct do_fld_desc_t`.  The flag bits
live in the upper nibble-and-above of `num_bits_typ`, exactly as in the
source. -/
structure do_fld_desc_t where
  low_pdo_bit : Nat
  num_bits_typ : Nat
  mult : Nat
  nam_str_off : Nat
deriving DecidableEq, Repr

def P_IT_FL_START : Nat := 0x10
def P_IT_FL_SINK : Nat := 0x20
def P_IT_FL_SRC : Nat := 0x40
def P_IT_FL_CONT : Nat := 0x80

/-- The 67-row field-descriptor table `pdo_part_a[]` (66 rows plus the
all-zero sentinel row). -/
def pdo_part_a : List do_fld_desc_t :=
  [ -- index=0: block for Fixed PDOs at object position 1
   ⟨29, 1 ||| P_IT_FL_START, 0, 0⟩,   -- DRP
   ⟨28, 1 ||| P_IT_FL_SINK, 0, 6⟩,    -- HC
   ⟨28, 1 ||| P_IT_FL_SRC, 0, 1⟩,     -- USS
   ⟨27, 1, 0, 2⟩,                      -- UCP (source+sink)
   ⟨26, 1, 0, 3⟩,                      -- UCC
   ⟨25, 1, 0, 15⟩,                     -- DRD
   ⟨24, 1 ||| P_IT_FL_SRC, 0, 4⟩,     -- UCH
   ⟨23, 1 ||| P_IT_FL_SRC, 0, 5⟩,     -- EPR mode capable
   ⟨23, 2 ||| P_IT_FL_SINK ||| P_IT_FL_CONT, 0, 7⟩, -- FRS, continue
   -- block for all Fixed PDOs
   ⟨20, 2 ||| P_IT_FL_START ||| P_IT_FL_SRC, 0, 8⟩, -- Peak current
   ⟨10, 10, 5, 9⟩,                     -- V (50 mV units)
   ⟨0, 10 ||| P_IT_FL_SRC, 1, 10⟩,    -- Imax (10 mA units)
   ⟨0, 10 ||| P_IT_FL_SINK, 1, 11⟩,   -- Ioperational
   -- index=13: block for Battery PDOs
   ⟨20, 10 ||| P_IT_FL_START, 5, 12⟩, -- Vmax
   ⟨10, 10, 5, 13⟩,                    -- Vmin
   ⟨0, 10 ||| P_IT_FL_SRC, 25, 16⟩,   -- Pmax
   ⟨0, 10 ||| P_IT_FL_SINK, 25, 17⟩,  -- Poperational
   -- index=17: block for Variable PDOs
   ⟨20, 10 ||| P_IT_FL_START, 5, 12⟩, -- Vmax
   ⟨10, 10, 5, 13⟩,                    -- Vmin
   ⟨0, 10 ||| P_IT_FL_SRC, 1, 10⟩,    -- Imax
   ⟨0, 10 ||| P_IT_FL_SINK, 1, 11⟩,   -- Ioperational
   -- index=21: block for PPS PDOs
   ⟨27, 1 ||| P_IT_FL_START ||| P_IT_FL_SRC, 0, 14⟩, -- PPL
   ⟨17, 8, 10, 12⟩,                    -- Vmax (100 mV units)
   ⟨8, 8, 10, 13⟩,                     -- Vmin
   ⟨0, 7 ||| P_IT_FL_SRC, 5, 10⟩,     -- Imax (50 mA units)
   ⟨0, 7 ||| P_IT_FL_SINK, 5, 11⟩,    -- Ioperational
   -- index=26: block for AVS PDOs
   ⟨26, 2 ||| P_IT_FL_START ||| P_IT_FL_SRC, 0, 8⟩, -- Peak current
   ⟨17, 9, 10, 12⟩,                    -- Vmax
   ⟨8, 8, 10, 13⟩,                     -- Vmin
   ⟨0, 8, 100, 18⟩,                    -- PDP (1 W units)
   -- index=30: block for Fixed and Variable RDOs
   ⟨28, 4 ||| P_IT_FL_START, 0, 19⟩,  -- Object position
   ⟨27, 1, 0, 20⟩,                     -- GiveBack flag
   ⟨26, 1, 0, 21⟩,                     -- Capability mismatch
   ⟨25, 1, 0, 3⟩,                      -- USB comms capable
   ⟨24, 1, 0, 22⟩,                     -- No USB suspend
   ⟨23, 1, 0, 4⟩,                      -- Unchunked ext msg support
   ⟨22, 1, 0, 5⟩,                      -- EPR mode capable
   ⟨10, 10, 1, 23⟩,                    -- Iop (10 mA units)
   ⟨0, 10 ||| P_IT_FL_SINK, 1, 24⟩,   -- Imax
   ⟨0, 10 ||| P_IT_FL_SRC, 1, 25⟩,    -- Imin
   -- index=40: block for Battery RDOs
   ⟨28, 4 ||| P_IT_FL_START, 0, 19⟩,
   ⟨27, 1, 0, 20⟩,
   ⟨26, 1, 0, 21⟩,
   ⟨25, 1, 0, 3⟩,
   ⟨24, 1, 0, 22⟩,
   ⟨23, 1, 0, 4⟩,
   ⟨22, 1, 0, 5⟩,
   ⟨10, 10, 25, 26⟩,                   -- Pop (250 mW units)
   ⟨0, 10 ||| P_IT_FL_SINK, 25, 27⟩,  -- Pmax
   ⟨0, 10 ||| P_IT_FL_SRC, 25, 28⟩,   -- Pmin
   -- index=50: block for PPS RDOs
   ⟨28, 4 ||| P_IT_FL_START, 0, 19⟩,
   ⟨26, 1, 0, 21⟩,
   ⟨25, 1, 0, 3⟩,
   ⟨24, 1, 0, 22⟩,
   ⟨23, 1, 0, 4⟩,
   ⟨22, 1, 0, 5⟩,
   ⟨9, 11, 2, 29⟩,                     -- Output voltage (20 mV units)
   ⟨0, 7, 5, 23⟩,                      -- Operating current (50 mA units)
   -- index=58: block for AVS RDOs
   ⟨28, 4 ||| P_IT_FL_START, 0, 19⟩,
   ⟨26, 1, 0, 21⟩,
   ⟨25, 1, 0, 3⟩,
   ⟨24, 1, 0, 22⟩,
   ⟨23, 1, 0, 4⟩,
   ⟨22, 1, 0, 5⟩,
   ⟨9, 11, 0xff, 29⟩,                  -- Output voltage (25 mV, special)
   ⟨0, 7, 5, 23⟩,                      -- Operating current
   -- index=66: sentinel
   ⟨0, 0, 0, 0⟩]

/-- One decoded field: the chosen name string, the masked raw value (the
uint16 `l_pdo16`/`l_rdo16` before scaling) and the text the source
appends after the name. -/
structure DecodedField where
  name : String
  raw16 : Nat
  value : String
deriving DecidableEq, Repr

/-- Two-digit zero-padded rendering of a value below 100 (C `%02u`). -/
def pad2 (n : Nat) : String := (if n < 10 then "0" else "") ++ toString n

/-- C `snprintf(b, sz, "=%u.%02u\n", v / 100, v % 100)`. -/
def fmt_u_02u (v : Nat) : String :=
  "=" ++ toString (v / 100) ++ "." ++ pad2 (v % 100) ++ "\n"

/-- Value text of one field in `pdo2str` (uint16 multiply). -/
def pdo_field_value (mult l16 : Nat) : String :=
  if mult != 0 then fmt_u_02u ((l16 * mult) % 65536)
  else "=" ++ toString l16 ++ "\n"

/-- Value text of one field in `rdo2str`: as `pdo_field_value` plus the
`0xff` special case for the AVS output-voltage field, where the source
computes `l_rdo16 = (l_rdo16 >> 1) * 25`. -/
def rdo_field_value (mult l16 : Nat) : String :=
  if mult != 0 then
    (if mult == 0xff then fmt_u_02u (((l16 >>> 1) * 25) % 65536)
     else fmt_u_02u ((l16 * mult) % 65536))
  else "=" ++ toString l16 ++ "\n"

/-- The masked field value: `l_pdo = a_pdo >> low_pdo_bit` (or `a_pdo`
when the offset is 0), `nb = num_b_typ & 0xf`, `mask = (1 << nb) - 1`,
then the uint16 cast. -/
def field_raw16 (w : Nat) (d : do_fld_desc_t) : Nat :=
  let l := if d.low_pdo_bit > 0 then w >>> d.low_pdo_bit else w
  let nb := d.num_bits_typ &&& 0xf
  (l &&& ((1 <<< nb) - 1)) % 65536

def mkPdoField (w : Nat) (d : do_fld_desc_t) : DecodedField :=
  { name := pdo_str_at d.nam_str_off
    raw16 := field_raw16 w d
    value := pdo_field_value d.mult (field_raw16 w d) }

def mkRdoField (w : Nat) (d : do_fld_desc_t) : DecodedField :=
  { name := pdo_str_at d.nam_str_off
    raw16 := field_raw16 w d
    value := rdo_field_value d.mult (field_raw16 w d) }

/-- The descriptor-traversal loop of `pdo2str`: `k` is the loop counter,
`fl_cont` the continue flag; the loop stops at the sentinel row or at a
`P_IT_FL_START` row when `k > 0` and the previous row did not set
`P_IT_FL_CONT`; role-filtered rows are skipped (after the continue flag
has been taken from them, as in the source). -/
def pdoLoop (w : Nat) (is_src : Bool) :
    List do_fld_desc_t → Nat → Bool → List DecodedField
  | [], _, _ => []
  | d :: rest, k, fl_cont =>
    if d.num_bits_typ == 0 then []
    else if !fl_cont && (k != 0) && ((d.num_bits_typ &&& P_IT_FL_START) != 0)
    then []
    else
      let fc := (d.num_bits_typ &&& P_IT_FL_CONT) != 0
      if ((d.num_bits_typ &&& P_IT_FL_SRC) != 0) && !is_src then
        pdoLoop w is_src rest (k + 1) fc
      else if ((d.num_bits_typ &&& P_IT_FL_SINK) != 0) && is_src then
        pdoLoop w is_src rest (k + 1) fc
      else mkPdoField w d :: pdoLoop w is_src rest (k + 1) fc

/-- The descriptor-traversal loop of `rdo2str`: as `pdoLoop`, but the
role filter is applied only when `check_gb` is set, and then
`P_IT_FL_SRC` rows are skipped when giveback (bit 27) is clear and
`P_IT_FL_SINK` rows when it is set.  `give` is the constant
`!!(0x08000000 & a_rdo)` the source recomputes each iteration. -/
def rdoLoop (w : Nat) (check_gb give : Bool) :
    List do_fld_desc_t → Nat → Bool → List DecodedField
  | [], _, _ => []
  | d :: rest, k, fl_cont =>
    if d.num_bits_typ == 0 then []
    else if !fl_cont && (k != 0) && ((d.num_bits_typ &&& P_IT_FL_START) != 0)
    then []
    else
      let fc := (d.num_bits_typ &&& P_IT_FL_CONT) != 0
      if check_gb && ((d.num_bits_typ &&& P_IT_FL_SRC) != 0) && !give then
        rdoLoop w check_gb give rest (k + 1) fc
      else if check_gb && ((d.num_bits_typ &&& P_IT_FL_SINK) != 0) && give then
        rdoLoop w check_gb give rest (k + 1) fc
      else mkRdoField w d :: rdoLoop w check_gb give rest (k + 1) fc

/-- `pdo_part_map[]`: PDO start indexes, keyed by
`((a_pdo >> 30) << 1) | (obj_pos == 1)`, with PPS/AVS special-cased. -/
def pdo_part_map : List Nat := [9, 0, 13, 13, 17, 17, 21, 26]

/-- `rdo_part_map[]`: RDO start indexes for {fixed+variable, battery,
pps, avs}. -/
def rdo_part_map : List Nat := [30, 40, 50, 58]

/-- Start index into `pdo_part_a[]` chosen by `pdo2str`: the switch on
`(uint8_t)(a_pdo >> 30)` overrides the map lookup for the augmented
(`11b`) case, where bit 28 picks AVS over PPS. -/
def pdo_start_index (w : Nat) (ind1 : Bool) : Nat :=
  if (w >>> 30) % 256 == 3 then
    (if (w &&& 0x10000000) != 0 then pdo_part_map.getD 7 0
     else pdo_part_map.getD 6 0)
  else pdo_part_map.getD (((w >>> 30) <<< 1) + (if ind1 then 1 else 0)) 0

/-- The variant word `pdo2str` writes at the start of its output. -/
def pdo_variant_str (w : Nat) : String :=
  match (w >>> 30) % 256 with
  | 0 => "Fixed"
  | 1 => "Battery"
  | 2 => "Variable"
  | 3 => if (w &&& 0x10000000) != 0 then "Adjustable voltage"
         else "Programmable power"
  | _ => ""

/-- The decoded-field sequence produced by `pdo2str(a_pdo, ind1,
is_src, out)`. -/
def pdo2strFields (w : Nat) (ind1 is_src : Bool) : List DecodedField :=
  pdoLoop w is_src (pdo_part_a.drop (pdo_start_index w ind1)) 0 false

/-- `enum class pdo_e` from lsucpd.cpp. -/
inductive pdo_e
  | pdo_null
  | pdo_fixed
  | pdo_variable
  | pdo_battery
  | apdo_pps
  | apdo_spr_avs
  | apdo_epr_avs
deriving DecidableEq, Repr

/-- Start index into `pdo_part_a[]` chosen by the `switch (ref_pdo)` of
`rdo2str`; `none` is the default branch ("RDO refers to bad PDO type"),
which emits no fields. -/
def rdo_start_index : pdo_e → Option Nat
  | .pdo_fixed => some (rdo_part_map.getD 0 0)
  | .pdo_battery => some (rdo_part_map.getD 1 0)
  | .pdo_variable => some (rdo_part_map.getD 0 0)
  | .apdo_pps => some (rdo_part_map.getD 2 0)
  | .apdo_epr_avs => some (rdo_part_map.getD 3 0)
  | .apdo_spr_avs => some (rdo_part_map.getD 3 0)
  | .pdo_null => none

/-- Whether `rdo2str` sets `check_giveback` for the given reference. -/
def rdo_check_giveback : pdo_e → Bool
  | .pdo_fixed => true
  | .pdo_battery => true
  | .pdo_variable => true
  | _ => false

/-- The decoded-field sequence produced by `rdo2str(a_rdo, ref_pdo,
out)`. -/
def rdo2strFields (w : Nat) (ref : pdo_e) : List DecodedField :=
  match rdo_start_index ref with
  | none => []
  | some ind =>
    rdoLoop w (rdo_check_giveback ref) ((w &&& 0x08000000) != 0)
      (pdo_part_a.drop ind) 0 false

/-- The reference-variant letter switch of `do_rdo_opt` (after
`toupper`). -/
def rdo_ref_of_char (c : Char) : Option pdo_e :=
  match c.toUpper with
  | 'F' => some .pdo_fixed
  | 'B' => some .pdo_battery
  | 'V' => some .pdo_variable
  | 'P' => some .apdo_pps
  | 'A' => some .apdo_epr_avs
  | 'E' => some .apdo_epr_avs
  | 'S' => some .apdo_spr_avs
  | _ => none

/-- The per-capability attribute map (`strstr_m`), filename to file
contents. -/
abbrev strstr_m := List (String × String)

/-- Leading-number scan performed by `sscanf("%u...")`: the `u`
conversion skips white space and then matches an *optionally signed*
decimal integer, converted as by `strtoul` — a leading `-` negates the
value in the unsigned type — and the result is stored into a 32-bit
`unsigned int`, wrapping modulo 2 ^ 32.  `none` when no digit follows
the optional sign (then `sscanf` does not count the conversion and the
callers fall back to 0). -/
def scan_u (s : String) : Option Nat :=
  let t := s.toList.dropWhile
    (fun c => c == ' ' || c == '\t' || c == '\n' || c == '\r' ||
      c == '\x0b' || c == '\x0c')
  let neg : Bool := match t with
    | '-' :: _ => true
    | _ => false
  let t2 := match t with
    | '-' :: r => r
    | '+' :: r => r
    | _ => t
  let ds := t2.takeWhile (fun c => c.isDigit)
  if ds.isEmpty then none
  else
    let n := ds.foldl (fun a c => a * 10 + (c.toNat - 48)) 0
    some (if neg then (2 ^ 32 - n % 2 ^ 32) % 2 ^ 32 else n % 2 ^ 32)

/-- C `get_millivolts`: `sscanf(value, "%umV", &mv)` returns 1 exactly
when the leading `%u` converts (the literal `mV` suffix is matched but
never assigned, so it cannot change the return count); otherwise 0 is
returned. -/
def get_millivolts (name : String) (m : strstr_m) : Nat :=
  match m.lookup name with
  | some s => (scan_u s).getD 0
  | none => 0

/-- C `get_milliamps` (format `"%umA"`, same structure). -/
def get_milliamps (name : String) (m : strstr_m) : Nat :=
  match m.lookup name with
  | some s => (scan_u s).getD 0
  | none => 0

/-- C `get_milliwatts` (format `"%umW"`, same structure). -/
def get_milliwatts (name : String) (m : strstr_m) : Nat :=
  match m.lookup name with
  | some s => (scan_u s).getD 0
  | none => 0

/-- C `get_unitless` (format `"%u"`, same structure). -/
def get_unitless (name : String) (m : strstr_m) : Nat :=
  match m.lookup name with
  | some s => (scan_u s).getD 0
  | none => 0

/-- C `build_raw_pdo`, from the empty-map check onward (the directory
scan feeding the map is I/O; its failure path also yields a zero word).
The `switch (a_pdo.pdo_el_)` is translated case by case; sequential
`r_pdo |=` updates become let-chains. -/
def build_raw_pdo (pdo_el : pdo_e) (src_caps : Bool) (pdo_ind : Nat)
    (m : strstr_m) : Nat :=
  if m.isEmpty then 0 else
  match pdo_el with
  | .pdo_fixed =>
    let ma := get_milliamps
      (if src_caps then "maximum_current" else "operational_current") m
    let r1 := (ma / 10) &&& 0x3ff
    let mv := get_millivolts "voltage" m
    let r2 := r1 ||| (((mv / 50) &&& 0x3ff) <<< 10)
    if pdo_ind == 1 then
      let r3 :=
        if src_caps then
          (let v := get_unitless "unchunked_extended_messages_supported" m
           if v != 0 then r2 ||| (1 <<< 24) else r2)
        else
          (let v := get_unitless "fast_role_swap_current" m
           if v != 0 then r2 ||| ((v &&& 3) <<< 23) else r2)
      let v1 := get_unitless "dual_role_data" m
      let r4 := if v1 != 0 then r3 ||| (1 <<< 25) else r3
      let v2 := get_unitless "usb_communication_capable" m
      let r5 := if v2 != 0 then r4 ||| (1 <<< 26) else r4
      let v3 := get_unitless "unconstrained_power" m
      let r6 := if v3 != 0 then r5 ||| ((v3 &&& 1) <<< 27) else r5
      let r7 :=
        if src_caps then
          (let v := get_unitless "usb_suspend_supported" m
           if v != 0 then r6 ||| ((v &&& 1) <<< 28) else r6)
        else
          (let v := get_unitless "higher_capability" m
           if v != 0 then r6 ||| ((v &&& 1) <<< 28) else r6)
      let v4 := get_unitless "dual_role_power" m
      if v4 != 0 then r7 ||| ((v4 &&& 1) <<< 29) else r7
    else r2
  | .pdo_battery =>
    let mw := get_milliwatts
      (if src_caps then "maximum_allowable_power" else "operational_power") m
    let r1 := (1 <<< 30) ||| ((mw / 250) &&& 0x3ff)
    let mvn := get_millivolts "minimum_voltage" m
    let r2 := r1 ||| (((mvn / 50) &&& 0x3ff) <<< 10)
    let mvx := get_millivolts "maximum_voltage" m
    r2 ||| (((mvx / 50) &&& 0x3ff) <<< 20)
  | .pdo_variable =>
    let ma := get_milliamps
      (if src_caps then "maximum_current" else "operational_current") m
    let r1 := (1 <<< 31) ||| ((ma / 10) &&& 0x3ff)
    let mvn := get_millivolts "minimum_voltage" m
    let r2 := r1 ||| (((mvn / 50) &&& 0x3ff) <<< 10)
    let mvx := get_millivolts "maximum_voltage" m
    r2 ||| (((mvx / 50) &&& 0x3ff) <<< 20)
  | .apdo_pps =>
    let ma := get_milliamps "maximum_current" m
    let r1 := (3 <<< 30) ||| ((ma / 50) &&& 0x7f)
    let mvn := get_millivolts "minimum_voltage" m
    let r2 := r1 ||| (((mvn / 100) &&& 0xff) <<< 8)
    let mvx := get_millivolts "maximum_voltage" m
    let r3 := r2 ||| (((mvx / 100) &&& 0xff) <<< 17)
    if src_caps then
      (let v := get_unitless "pps_power_limited" m
       if v != 0 then r3 ||| ((v &&& 1) <<< 27) else r3)
    else r3
  | .apdo_spr_avs => 0
  | .apdo_epr_avs =>
    let r1 := (3 <<< 30) ||| (1 <<< 28)
    let mw := get_milliwatts "pdp" m
    let r2 := r1 ||| ((mw / 1000) &&& 0xff)
    let mvn := get_millivolts "minimum_voltage" m
    let r3 := r2 ||| (((mvn / 100) &&& 0xff) <<< 8)
    let mvx := get_millivolts "maximum_voltage" m
    let r4 := r3 ||| (((mvx / 100) &&& 0x1ff) <<< 17)
    let v := get_unitless "peak_current" m
    if v != 0 then r4 ||| ((v &&& 3) <<< 26) else r4
  | .pdo_null => 0

/-- The field names of the Fixed/Variable RDO block (rows 30..39 of
`pdo_part_a[]`), in table order. -/
def rdo_fixed_block_names : List String :=
  ((pdo_part_a.drop 30).take 10).map (fun d => pdo_str_at d.nam_str_off)

/-! Bit-extraction toolkit used to reason about the encoder's `|=`
accumulation: a field is recovered from an OR-accumulated word by
distributing shift-and-mask over `|||` and discharging the terms that
lie entirely outside the extraction window. -/

lemma shiftRight_or_distrib (a b k : Nat) :
    (a ||| b) >>> k = (a >>> k) ||| (b >>> k) := by
  apply Nat.eq_of_testBit_eq
  intro i
  simp [Nat.testBit_or]

lemma extract_or (a b k m : Nat) :
    ((a ||| b) >>> k) &&& m = ((a >>> k) &&& m) ||| ((b >>> k) &&& m) := by
  rw [shiftRight_or_distrib, Nat.and_distrib_right]

lemma shiftRight_eq_zero {t k : Nat} (h : t < 2 ^ k) : t >>> k = 0 := by
  rw [Nat.shiftRight_eq_div_pow]
  exact Nat.div_eq_of_lt h

lemma extract_lo {t k : Nat} (m : Nat) (h : t < 2 ^ k) : (t >>> k) &&& m = 0 := by
  rw [shiftRight_eq_zero h, Nat.zero_and]

lemma and_shiftLeft_eq_zero (x : Nat) {d m : Nat} (h : m < 2 ^ d) :
    (x <<< d) &&& m = 0 := by
  apply Nat.eq_of_testBit_eq
  intro i
  simp only [Nat.testBit_and, Nat.testBit_shiftLeft, Nat.zero_testBit]
  by_cases hd : d ≤ i
  · have hm : m.testBit i = false :=
      Nat.testBit_lt_two_pow
        (lt_of_lt_of_le h (Nat.pow_le_pow_right (by norm_num) hd))
    simp [hm]
  · simp [hd]

lemma shiftLeft_shiftRight_of_le (x : Nat) {n k : Nat} (h : k ≤ n) :
    (x <<< n) >>> k = x <<< (n - k) := by
  apply Nat.eq_of_testBit_eq
  intro i
  simp only [Nat.testBit_shiftRight, Nat.testBit_shiftLeft]
  by_cases hc : n ≤ k + i
  · have h1 : n - k ≤ i := by omega
    have h2 : k + i - n = i - (n - k) := by omega
    simp [hc, h1, h2]
  · have h1 : ¬ (n - k ≤ i) := by omega
    simp [hc, h1]

lemma extract_hi (x : Nat) {n k m : Nat} (hk : k ≤ n) (hm : m < 2 ^ (n - k)) :
    ((x <<< n) >>> k) &&& m = 0 := by
  rw [shiftLeft_shiftRight_of_le x hk]
  exact and_shiftLeft_eq_zero x hm

lemma and_mask_idem (a m : Nat) : (a &&& m) &&& m = a &&& m := by
  rw [Nat.and_assoc, Nat.and_self]

lemma extract_self_idem (x d m : Nat) :
    (((x &&& m) <<< d) >>> d) &&& m = x &&& m := by
  rw [Nat.shiftLeft_shiftRight, and_mask_idem]

lemma and_shiftLeft_lt (x : Nat) {m d p : Nat} (h : (m + 1) * 2 ^ d ≤ 2 ^ p) :
    (x &&& m) <<< d < 2 ^ p := by
  rw [Nat.shiftLeft_eq]
  have h1 : x &&& m ≤ m := Nat.and_le_right
  have h2 : (x &&& m) * 2 ^ d ≤ m * 2 ^ d :=
    Nat.mul_le_mul_right _ h1
  have h4 : 0 < 2 ^ d := Nat.two_pow_pos d
  have h5 : m * 2 ^ d + 2 ^ d ≤ 2 ^ p := by
    rw [← Nat.succ_mul]
    exact h
  omega

lemma ite_sr30 (c : Prop) [Decidable c] (a b : Nat) :
    (if c then a else b) >>> 30 = if c then a >>> 30 else b >>> 30 :=
  apply_ite (fun z => z >>> 30) c a b

lemma ite_ex (k m : Nat) (c : Prop) [Decidable c] (a b : Nat) :
    ((if c then a else b) >>> k) &&& m =
      if c then (a >>> k) &&& m else (b >>> k) &&& m :=
  apply_ite (fun z => (z >>> k) &&& m) c a b

lemma ite_and (mm : Nat) (c : Prop) [Decidable c] (a b : Nat) :
    (if c then a else b) &&& mm = if c then a &&& mm else b &&& mm :=
  apply_ite (fun z => z &&& mm) c a b

/-! Extraction instances for the Fixed-PDO encoder: the voltage field
window (bits 19..10) and the selector window (bits 31..30). -/

lemma exf_lo (x : Nat) : ((x &&& 1023) >>> 10) &&& 1023 = 0 :=
  extract_lo 1023 (Nat.and_lt_two_pow x (by norm_num))

lemma exf_keep (x : Nat) :
    (((x &&& 1023) <<< 10) >>> 10) &&& 1023 = x &&& 1023 :=
  extract_self_idem x 10 1023

lemma exf23 (x : Nat) : ((x <<< 23) >>> 10) &&& 1023 = 0 :=
  extract_hi x (by norm_num) (by norm_num)

lemma exf24 (x : Nat) : ((x <<< 24) >>> 10) &&& 1023 = 0 :=
  extract_hi x (by norm_num) (by norm_num)

lemma exf25 (x : Nat) : ((x <<< 25) >>> 10) &&& 1023 = 0 :=
  extract_hi x (by norm_num) (by norm_num)

lemma exf26 (x : Nat) : ((x <<< 26) >>> 10) &&& 1023 = 0 :=
  extract_hi x (by norm_num) (by norm_num)

lemma exf27 (x : Nat) : ((x <<< 27) >>> 10) &&& 1023 = 0 :=
  extract_hi x (by norm_num) (by norm_num)

lemma exf28 (x : Nat) : ((x <<< 28) >>> 10) &&& 1023 = 0 :=
  extract_hi x (by norm_num) (by norm_num)

lemma exf29 (x : Nat) : ((x <<< 29) >>> 10) &&& 1023 = 0 :=
  extract_hi x (by norm_num) (by norm_num)

lemma sh30f_lo (x : Nat) : (x &&& 1023) >>> 30 = 0 :=
  shiftRight_eq_zero
    (lt_of_lt_of_le (Nat.and_lt_two_pow x (show (1023 : Nat) < 2 ^ 10 by norm_num))
      (show (2 : Nat) ^ 10 ≤ 2 ^ 30 by norm_num))

lemma sh30f_v (x : Nat) : ((x &&& 1023) <<< 10) >>> 30 = 0 :=
  shiftRight_eq_zero (and_shiftLeft_lt x (by norm_num))

lemma sh30f_23 (x : Nat) : ((x &&& 3) <<< 23) >>> 30 = 0 :=
  shiftRight_eq_zero (and_shiftLeft_lt x (by norm_num))

lemma sh30f_24 : (1 <<< 24) >>> 30 = 0 := by decide

lemma sh30f_25 : (1 <<< 25) >>> 30 = 0 := by decide

lemma sh30f_26 : (1 <<< 26) >>> 30 = 0 := by decide

lemma sh30f_27 (x : Nat) : ((x &&& 1) <<< 27) >>> 30 = 0 :=
  shiftRight_eq_zero (and_shiftLeft_lt x (by norm_num))

lemma sh30f_28 (x : Nat) : ((x &&& 1) <<< 28) >>> 30 = 0 :=
  shiftRight_eq_zero (and_shiftLeft_lt x (by norm_num))

lemma sh30f_29 (x : Nat) : ((x &&& 1) <<< 29) >>> 30 = 0 :=
  shiftRight_eq_zero (and_shiftLeft_lt x (by norm_num))

/-! Extraction instances for the EPR-AVS encoder's six field windows. -/

lemma sh30e_28 : (1 <<< 28) >>> 30 = 0 := by decide

lemma sh30e_p (x : Nat) : (x &&& 255) >>> 30 = 0 :=
  shiftRight_eq_zero
    (lt_of_lt_of_le (Nat.and_lt_two_pow x (show (255 : Nat) < 2 ^ 8 by norm_num))
      (show (2 : Nat) ^ 8 ≤ 2 ^ 30 by norm_num))

lemma sh30e_vn (x : Nat) : ((x &&& 255) <<< 8) >>> 30 = 0 :=
  shiftRight_eq_zero (and_shiftLeft_lt x (by norm_num))

lemma sh30e_vx (x : Nat) : ((x &&& 511) <<< 17) >>> 30 = 0 :=
  shiftRight_eq_zero (and_shiftLeft_lt x (by norm_num))

lemma sh30e_k (x : Nat) : ((x &&& 3) <<< 26) >>> 30 = 0 :=
  shiftRight_eq_zero (and_shiftLeft_lt x (by norm_num))

lemma e28_A : ((3 <<< 30) >>> 28) &&& 1 = 0 := by decide

lemma e28_B : ((1 <<< 28) >>> 28) &&& 1 = 1 := by decide

lemma e28_p (x : Nat) : ((x &&& 255) >>> 28) &&& 1 = 0 :=
  extract_lo 1
    (lt_of_lt_of_le (Nat.and_lt_two_pow x (show (255 : Nat) < 2 ^ 8 by norm_num))
      (show (2 : Nat) ^ 8 ≤ 2 ^ 28 by norm_num))

lemma e28_vn (x : Nat) : (((x &&& 255) <<< 8) >>> 28) &&& 1 = 0 :=
  extract_lo 1 (and_shiftLeft_lt x (by norm_num))

lemma e28_vx (x : Nat) : (((x &&& 511) <<< 17) >>> 28) &&& 1 = 0 :=
  extract_lo 1 (and_shiftLeft_lt x (by norm_num))

lemma e28_k (x : Nat) : (((x &&& 3) <<< 26) >>> 28) &&& 1 = 0 :=
  extract_lo 1 (and_shiftLeft_lt x (by norm_num))

lemma e0_A : (3 <<< 30) &&& 255 = 0 := by decide

lemma e0_B : (1 <<< 28) &&& 255 = 0 := by decide

lemma e0_vn (x : Nat) : ((x &&& 255) <<< 8) &&& 255 = 0 :=
  and_shiftLeft_eq_zero _ (by norm_num)

lemma e0_vx (x : Nat) : ((x &&& 511) <<< 17) &&& 255 = 0 :=
  and_shiftLeft_eq_zero _ (by norm_num)

lemma e0_k (x : Nat) : ((x &&& 3) <<< 26) &&& 255 = 0 :=
  and_shiftLeft_eq_zero _ (by norm_num)

lemma e8_A : ((3 <<< 30) >>> 8) &&& 255 = 0 := by decide

lemma e8_B : ((1 <<< 28) >>> 8) &&& 255 = 0 := by decide

lemma e8_p (x : Nat) : ((x &&& 255) >>> 8) &&& 255 = 0 :=
  extract_lo 255 (Nat.and_lt_two_pow x (by norm_num))

lemma e8_vx (x : Nat) : (((x &&& 511) <<< 17) >>> 8) &&& 255 = 0 :=
  extract_hi _ (by norm_num) (by norm_num)

lemma e8_k (x : Nat) : (((x &&& 3) <<< 26) >>> 8) &&& 255 = 0 :=
  extract_hi _ (by norm_num) (by norm_num)

lemma e17_A : ((3 <<< 30) >>> 17) &&& 511 = 0 := by decide

lemma e17_B : ((1 <<< 28) >>> 17) &&& 511 = 0 := by decide

lemma e17_p (x : Nat) : ((x &&& 255) >>> 17) &&& 511 = 0 :=
  extract_lo 511
    (lt_of_lt_of_le (Nat.and_lt_two_pow x (show (255 : Nat) < 2 ^ 8 by norm_num))
      (show (2 : Nat) ^ 8 ≤ 2 ^ 17 by norm_num))

lemma e17_vn (x : Nat) : (((x &&& 255) <<< 8) >>> 17) &&& 511 = 0 :=
  extract_lo 511 (and_shiftLeft_lt x (by norm_num))

lemma e17_k (x : Nat) : (((x &&& 3) <<< 26) >>> 17) &&& 511 = 0 :=
  extract_hi _ (by norm_num) (by norm_num)

lemma e26_A : ((3 <<< 30) >>> 26) &&& 3 = 0 := by decide

lemma e26_B : ((1 <<< 28) >>> 26) &&& 3 = 0 := by decide

lemma e26_p (x : Nat) : ((x &&& 255) >>> 26) &&& 3 = 0 :=
  extract_lo 3
    (lt_of_lt_of_le (Nat.and_lt_two_pow x (show (255 : Nat) < 2 ^ 8 by norm_num))
      (show (2 : Nat) ^ 8 ≤ 2 ^ 26 by norm_num))

lemma e26_vn (x : Nat) : (((x &&& 255) <<< 8) >>> 26) &&& 3 = 0 :=
  extract_lo 3 (and_shiftLeft_lt x (by norm_num))

lemma e26_vx (x : Nat) : (((x &&& 511) <<< 17) >>> 26) &&& 3 = 0 :=
  extract_lo 3 (and_shiftLeft_lt x (by norm_num))

/-! Shape lemmas about the Fixed-PDO encoder. -/

/-- Bits 19..10 of any Fixed-PDO encode hold the scaled voltage field,
whatever the other attributes contribute. -/
lemma build_fixed_voltage_bits (src : Bool) (ind : Nat) (m : strstr_m) :
    (build_raw_pdo .pdo_fixed src ind m >>> 10) &&& 1023 =
      (get_millivolts "voltage" m / 50) &&& 1023 := by
  cases m with
  | nil => simp [build_raw_pdo, get_millivolts]
  | cons a as =>
    unfold build_raw_pdo
    rw [if_neg (by simp)]
    dsimp only
    simp only [ite_ex, extract_or, exf_lo, exf_keep, exf23, exf24, exf25,
      exf26, exf27, exf28, exf29, Nat.zero_or, Nat.or_zero, ite_self]

/-- A Fixed-PDO encode never sets the selector bits 31..30. -/
lemma build_fixed_sr30 (src : Bool) (ind : Nat) (m : strstr_m) :
    build_raw_pdo .pdo_fixed src ind m >>> 30 = 0 := by
  cases m with
  | nil => simp [build_raw_pdo]
  | cons a as =>
    unfold build_raw_pdo
    rw [if_neg (by simp)]
    dsimp only
    simp only [ite_sr30, shiftRight_or_distrib, sh30f_lo, sh30f_v, sh30f_23,
      sh30f_24, sh30f_25, sh30f_26, sh30f_27, sh30f_28, sh30f_29,
      Nat.zero_or, Nat.or_zero, ite_self]

/-! Evaluation lemmas for the decoder traversals: once the variant (or
the giveback bit) is pinned down, the visited descriptor rows and hence
the emitted field names are fixed by the table alone. -/

lemma pdoLoop_length_le (w : Nat) (s : Bool) :
    ∀ (L : List do_fld_desc_t) (k : Nat) (fc : Bool),
      (pdoLoop w s L k fc).length ≤ L.length := by
  intro L
  induction L with
  | nil => intro k fc; simp [pdoLoop]
  | cons d rest ih =>
    intro k fc
    simp only [pdoLoop, List.length_cons]
    split
    · simp
    · split
      · simp
      · split
        · exact Nat.le_succ_of_le (ih _ _)
        · split
          · exact Nat.le_succ_of_le (ih _ _)
          · simpa using Nat.succ_le_succ (ih _ _)

lemma fixed_ind1_src_names (w : Nat) (h : w >>> 30 = 0) :
    (pdo2strFields w true true).map DecodedField.name =
      ["dual_role_power", "usb_suspend_supported", "unconstrained_power",
       "usb_communication_capable", "dual_role_data",
       "unchunked_message_supported", "epr_mode_supported", "peak_current",
       "voltage", "maximum_current"] := by
  unfold pdo2strFields pdo_start_index
  rw [h]
  rfl

lemma fixed_ind1_snk_names (w : Nat) (h : w >>> 30 = 0) :
    (pdo2strFields w true false).map DecodedField.name =
      ["dual_role_power", "higher_capability", "unconstrained_power",
       "usb_communication_capable", "dual_role_data", "fast_role_swap",
       "voltage", "operational_current"] := by
  unfold pdo2strFields pdo_start_index
  rw [h]
  rfl

lemma fixed_find_voltage (w : Nat) (h : w >>> 30 = 0) (ind1 src : Bool) :
    (pdo2strFields w ind1 src).find? (fun f => f.name == "voltage") =
      some (mkPdoField w ⟨10, 10, 5, 9⟩) := by
  cases ind1 <;> cases src <;>
    (unfold pdo2strFields pdo_start_index; rw [h]; rfl)

lemma rdo_fixed_gb_names (w : Nat) (h : w &&& 0x08000000 = 0x08000000) :
    (rdo2strFields w .pdo_fixed).map DecodedField.name =
      ["object_position", "giveback_flag", "capability_mismatch",
       "usb_communication_capable", "no_usb_suspend",
       "unchunked_message_supported", "epr_mode_supported",
       "operating_current", "minimum_operating_current"] := by
  unfold rdo2strFields rdo_start_index
  rw [h]
  rfl

lemma rdo_fixed_nogb_names (w : Nat) (h : w &&& 0x08000000 = 0) :
    (rdo2strFields w .pdo_fixed).map DecodedField.name =
      ["object_position", "giveback_flag", "capability_mismatch",
       "usb_communication_capable", "no_usb_suspend",
       "unchunked_message_supported", "epr_mode_supported",
       "operating_current", "maximum_operating_current"] := by
  unfold rdo2strFields rdo_start_index
  rw [h]
  rfl

lemma fixed_ind1_find_ucp (w : Nat) (h : w >>> 30 = 0) (src : Bool) :
    (pdo2strFields w true src).find?
        (fun f => f.name == "unconstrained_power") =
      some (mkPdoField w ⟨27, 1, 0, 2⟩) := by
  cases src <;> (unfold pdo2strFields pdo_start_index; rw [h]; rfl)

lemma bit27_of_and (w : Nat) (h : w &&& 0x08000000 = 0x08000000) :
    (w >>> 27) &&& 1 = 1 := by
  have hb : w.testBit 27 = true := by
    have hq := congrArg (fun z => z.testBit 27) h
    simp only [Nat.testBit_and] at hq
    have h2 : Nat.testBit 0x08000000 27 = true := by decide
    rw [h2] at hq
    simpa using hq
  have ht : w.testBit 27 = decide (w / 2 ^ 27 % 2 = 1) :=
    Nat.testBit_to_div_mod
  rw [hb] at ht
  have h3 : w / 2 ^ 27 % 2 = 1 := of_decide_eq_true ht.symm
  rw [Nat.and_one_is_mod, Nat.shiftRight_eq_div_pow]
  exact h3

/-! Claim theorems. -/

/-- C1 counterexample: the claim asserts the two giveback branches'
decoded field-name sets are disjoint, but both branches decode the eight
flag-free rows of the Fixed/Variable RDO block (for example
`object_position`); and with giveback set the decode does not contain
`maximum_operating_current` (that is the SinkOnly, giveback-clear
field). -/
theorem rdo_giveback_sets_not_disjoint :
    "object_position" ∈
      (rdo2strFields 0x08000000 .pdo_fixed).map DecodedField.name ∧
    "object_position" ∈ (rdo2strFields 0 .pdo_fixed).map DecodedField.name ∧
    "maximum_operating_current" ∉
      (rdo2strFields 0x08000000 .pdo_fixed).map DecodedField.name := by
  decide

/-- C1 (amended): for a Fixed-reference RDO, when bit 27 (giveback) is
set the decode includes the SourceOnly field `minimum_operating_current`
and excludes the SinkOnly field `maximum_operating_current`, and vice
versa when bit 27 is clear; only those two role-flagged fields differ
between the branches (the eight flag-free fields are shared), and the
union of the two branches' decoded names is exactly the block's name
set. -/
theorem rdo_giveback_branch_fields (w1 w2 : Nat)
    (h1 : w1 &&& 0x08000000 = 0x08000000) (h2 : w2 &&& 0x08000000 = 0) :
    (rdo2strFields w1 .pdo_fixed).map DecodedField.name =
      ["object_position", "giveback_flag", "capability_mismatch",
       "usb_communication_capable", "no_usb_suspend",
       "unchunked_message_supported", "epr_mode_supported",
       "operating_current", "minimum_operating_current"] ∧
    (rdo2strFields w2 .pdo_fixed).map DecodedField.name =
      ["object_position", "giveback_flag", "capability_mismatch",
       "usb_communication_capable", "no_usb_suspend",
       "unchunked_message_supported", "epr_mode_supported",
       "operating_current", "maximum_operating_current"] ∧
    "minimum_operating_current" ∈
      (rdo2strFields w1 .pdo_fixed).map DecodedField.name ∧
    "maximum_operating_current" ∉
      (rdo2strFields w1 .pdo_fixed).map DecodedField.name ∧
    "maximum_operating_current" ∈
      (rdo2strFields w2 .pdo_fixed).map DecodedField.name ∧
    "minimum_operating_current" ∉
      (rdo2strFields w2 .pdo_fixed).map DecodedField.name ∧
    (∀ n, n ∈ rdo_fixed_block_names ↔
      (n ∈ (rdo2strFields w1 .pdo_fixed).map DecodedField.name ∨
       n ∈ (rdo2strFields w2 .pdo_fixed).map DecodedField.name)) := by
  rw [rdo_fixed_gb_names w1 h1, rdo_fixed_nogb_names w2 h2]
  refine ⟨rfl, rfl, by decide, by decide, by decide, by decide, ?_⟩
  intro n
  have hb : rdo_fixed_block_names =
      ["object_position", "giveback_flag", "capability_mismatch",
       "usb_communication_capable", "no_usb_suspend",
       "unchunked_message_supported", "epr_mode_supported",
       "operating_current", "maximum_operating_current",
       "minimum_operating_current"] := rfl
  rw [hb]
  simp only [List.mem_cons, List.not_mem_nil, or_false]
  tauto

/-- C1 witness: the two branch decodes evaluated at the concrete RDO
words 0x08000000 (giveback set) and 0 (giveback clear). -/
theorem rdo_giveback_branch_fields_witness :
    (rdo2strFields 0x08000000 .pdo_fixed).map DecodedField.name =
      ["object_position", "giveback_flag", "capability_mismatch",
       "usb_communication_capable", "no_usb_suspend",
       "unchunked_message_supported", "epr_mode_supported",
       "operating_current", "minimum_operating_current"] ∧
    (rdo2strFields 0 .pdo_fixed).map DecodedField.name =
      ["object_position", "giveback_flag", "capability_mismatch",
       "usb_communication_capable", "no_usb_suspend",
       "unchunked_message_supported", "epr_mode_supported",
       "operating_current", "maximum_operating_current"] ∧
    "minimum_operating_current" ∈
      (rdo2strFields 0x08000000 .pdo_fixed).map DecodedField.name ∧
    "maximum_operating_current" ∉
      (rdo2strFields 0x08000000 .pdo_fixed).map DecodedField.name ∧
    "maximum_operating_current" ∈
      (rdo2strFields 0 .pdo_fixed).map DecodedField.name ∧
    "minimum_operating_current" ∉
      (rdo2strFields 0 .pdo_fixed).map DecodedField.name ∧
    (∀ n, n ∈ rdo_fixed_block_names ↔
      (n ∈ (rdo2strFields 0x08000000 .pdo_fixed).map DecodedField.name ∨
       n ∈ (rdo2strFields 0 .pdo_fixed).map DecodedField.name)) :=
  rdo_giveback_branch_fields 0x08000000 0 (by decide) (by decide)

/-- C2 counterexample: the all-zero word is not treated as a sentinel;
`pdo2str` classifies it by bits 31..30 as Fixed, and a genuine Fixed PDO
with zero voltage and zero current encodes to exactly that word, so the
two are indistinguishable to the decoder. -/
theorem zero_word_classified_fixed_not_null :
    pdo_variant_str 0 = "Fixed" ∧
    build_raw_pdo .pdo_fixed true 2
      [("voltage", "0mV"), ("maximum_current", "0mA")] = 0 ∧
    pdo2strFields 0 false true ≠ [] := by
  decide

/-- C2 (amended): PDO decoding is total — for every word the decoder
emits at most one table's worth of fields and cannot run away — and the
all-zero word 0x00000000 is classified by bits 31..30 as Fixed and
decodes exactly like a genuine Fixed PDO with zero voltage/current;
there is no sentinel check ahead of the bit-based classification. -/
theorem pdo_decode_total_and_zero_is_fixed :
    (∀ (w : Nat) (ind1 src : Bool),
      (pdo2strFields w ind1 src).length ≤ pdo_part_a.length) ∧
    pdo_variant_str 0 = "Fixed" ∧
    (∀ src : Bool,
      pdo2strFields 0 false src =
        pdo2strFields
          (build_raw_pdo .pdo_fixed src 2
            [("voltage", "0mV"), ("maximum_current", "0mA"),
             ("operational_current", "0mA")]) false src) := by
  refine ⟨?_, rfl, ?_⟩
  · intro w ind1 src
    unfold pdo2strFields
    refine le_trans (pdoLoop_length_le _ _ _ _ _) ?_
    rw [List.length_drop]
    omega
  · intro src
    cases src <;> rfl

/-- C3 counterexample: after the `P_IT_FL_CONT` row (table row 8, the
fast-role-swap field), a traversal that consumed exactly one extra
descriptor would stop at row 9 (`peak_current`); but the Fixed
object-index-1 decode fields continue through rows 10 and 11, emitting
`voltage` and `maximum_current` — ten fields in all. -/
theorem continue_group_consumes_whole_next_block :
    ((pdo2strFields 0 true true).map DecodedField.name).length = 10 ∧
    "voltage" ∈ (pdo2strFields 0 true true).map DecodedField.name ∧
    "maximum_current" ∈ (pdo2strFields 0 true true).map DecodedField.name := by
  decide

/-- C3 (amended): `ContinueGroup` on the last descriptor of a block
suppresses the stop at exactly one following `GroupStart` descriptor
(the continue flag is cleared after that row), and traversal then runs
on through the whole next block, stopping only at the block boundary
after it — so a Fixed object-index-1 decode emits the index-1 block
followed by the entire shared base block. -/
theorem continue_group_runs_to_next_group_start (w : Nat) (src : Bool)
    (h : w >>> 30 = 0) :
    (pdo2strFields w true src).map DecodedField.name =
      (if src then
        ["dual_role_power", "usb_suspend_supported", "unconstrained_power",
         "usb_communication_capable", "dual_role_data",
         "unchunked_message_supported", "epr_mode_supported", "peak_current",
         "voltage", "maximum_current"]
       else
        ["dual_role_power", "higher_capability", "unconstrained_power",
         "usb_communication_capable", "dual_role_data", "fast_role_swap",
         "voltage", "operational_current"]) := by
  cases src
  · simpa using fixed_ind1_snk_names w h
  · simpa using fixed_ind1_src_names w h

/-- C3 witness: the continued traversal at word 0, source role. -/
theorem continue_group_runs_to_next_group_start_witness :
    (pdo2strFields 0 true true).map DecodedField.name =
      (if true then
        ["dual_role_power", "usb_suspend_supported", "unconstrained_power",
         "usb_communication_capable", "dual_role_data",
         "unchunked_message_supported", "epr_mode_supported", "peak_current",
         "voltage", "maximum_current"]
       else
        ["dual_role_power", "higher_capability", "unconstrained_power",
         "usb_communication_capable", "dual_role_data", "fast_role_swap",
         "voltage", "operational_current"]) :=
  continue_group_runs_to_next_group_start 0 true (by decide)

/-- C4 counterexample: the SPR-AVS case of `build_raw_pdo` is an empty
`break` — the encode of an SPR-AVS capability is 0, with no selector
bits — and the EPR-AVS case ORs the peak-current field in for sink
capabilities too (here bits 27..26 = 2 for a sink encode). -/
theorem avs_encoder_counterexample :
    build_raw_pdo .apdo_spr_avs true 1 [("pdp", "15000mW")] = 0 ∧
    (build_raw_pdo .apdo_epr_avs false 1 [("peak_current", "2")] >>> 26)
      &&& 3 = 2 := by
  decide

/-- C4 (amended): for the EprAvs variant and any non-empty attribute
map, the encoder sets selector bits 31..30 to 11 and the AVS
sub-selector bit 28, encodes pdp (bits 7..0), minimum voltage
(bits 15..8) and maximum voltage (bits 25..17) into their fields, and
ORs in the peak-current field (bits 27..26) whenever the attribute is
present and non-zero — for sink capabilities as well as source; the
SprAvs variant encodes to 0. -/
theorem epr_avs_encoder_fields (src : Bool) (ind : Nat) (m : strstr_m)
    (hne : m ≠ []) :
    build_raw_pdo .apdo_epr_avs src ind m >>> 30 = 3 ∧
    (build_raw_pdo .apdo_epr_avs src ind m >>> 28) &&& 1 = 1 ∧
    build_raw_pdo .apdo_epr_avs src ind m &&& 255 =
      (get_milliwatts "pdp" m / 1000) &&& 255 ∧
    (build_raw_pdo .apdo_epr_avs src ind m >>> 8) &&& 255 =
      (get_millivolts "minimum_voltage" m / 100) &&& 255 ∧
    (build_raw_pdo .apdo_epr_avs src ind m >>> 17) &&& 511 =
      (get_millivolts "maximum_voltage" m / 100) &&& 511 ∧
    (build_raw_pdo .apdo_epr_avs src ind m >>> 26) &&& 3 =
      (if get_unitless "peak_current" m != 0
       then get_unitless "peak_current" m &&& 3 else 0) ∧
    build_raw_pdo .apdo_spr_avs src ind m = 0 := by
  cases m with
  | nil => exact absurd rfl hne
  | cons a as =>
    refine ⟨?_, ?_, ?_, ?_, ?_, ?_, ?_⟩
    · unfold build_raw_pdo
      rw [if_neg (by simp)]
      dsimp only
      simp only [ite_sr30, shiftRight_or_distrib, Nat.shiftLeft_shiftRight,
        sh30e_28, sh30e_p, sh30e_vn, sh30e_vx, sh30e_k, Nat.zero_or,
        Nat.or_zero, ite_self]
    · unfold build_raw_pdo
      rw [if_neg (by simp)]
      dsimp only
      simp only [ite_ex, extract_or, e28_A, e28_B, e28_p, e28_vn, e28_vx,
        e28_k, Nat.zero_or, Nat.or_zero, ite_self]
    · unfold build_raw_pdo
      rw [if_neg (by simp)]
      dsimp only
      simp only [ite_and, Nat.and_distrib_right, e0_A, e0_B, e0_vn, e0_vx,
        e0_k, and_mask_idem, Nat.zero_or, Nat.or_zero, ite_self]
    · unfold build_raw_pdo
      rw [if_neg (by simp)]
      dsimp only
      simp only [ite_ex, extract_or, e8_A, e8_B, e8_p, extract_self_idem,
        e8_vx, e8_k, Nat.zero_or, Nat.or_zero, ite_self]
    · unfold build_raw_pdo
      rw [if_neg (by simp)]
      dsimp only
      simp only [ite_ex, extract_or, e17_A, e17_B, e17_p, e17_vn,
        extract_self_idem, e17_k, Nat.zero_or, Nat.or_zero, ite_self]
    · unfold build_raw_pdo
      rw [if_neg (by simp)]
      dsimp only
      simp only [ite_ex, extract_or, e26_A, e26_B, e26_p, e26_vn, e26_vx,
        extract_self_idem, Nat.zero_or, Nat.or_zero]
    · simp [build_raw_pdo]

/-- C4 witness: the EPR-AVS encode of a concrete source capability with
pdp 25 W. -/
theorem epr_avs_encoder_fields_witness :
    build_raw_pdo .apdo_epr_avs true 1 [("pdp", "25000mW")] >>> 30 = 3 ∧
    (build_raw_pdo .apdo_epr_avs true 1 [("pdp", "25000mW")] >>> 28)
      &&& 1 = 1 ∧
    build_raw_pdo .apdo_epr_avs true 1 [("pdp", "25000mW")] &&& 255 =
      (get_milliwatts "pdp" [("pdp", "25000mW")] / 1000) &&& 255 ∧
    (build_raw_pdo .apdo_epr_avs true 1 [("pdp", "25000mW")] >>> 8)
      &&& 255 =
      (get_millivolts "minimum_voltage" [("pdp", "25000mW")] / 100)
        &&& 255 ∧
    (build_raw_pdo .apdo_epr_avs true 1 [("pdp", "25000mW")] >>> 17)
      &&& 511 =
      (get_millivolts "maximum_voltage" [("pdp", "25000mW")] / 100)
        &&& 511 ∧
    (build_raw_pdo .apdo_epr_avs true 1 [("pdp", "25000mW")] >>> 26)
      &&& 3 =
      (if get_unitless "peak_current" [("pdp", "25000mW")] != 0
       then get_unitless "peak_current" [("pdp", "25000mW")] &&& 3
       else 0) ∧
    build_raw_pdo .apdo_spr_avs true 1 [("pdp", "25000mW")] = 0 :=
  epr_avs_encoder_fields true 1 [("pdp", "25000mW")] (by simp)

/-- C5: a Fixed object-index-1 decode with bit 27 set contains
`unconstrained_power` for both roles (the row has no role flag) with raw
value 1, while `usb_suspend_supported` appears exactly when decoding as
source and `higher_capability` exactly when decoding as sink — both
reading the same bit 28. -/
theorem fixed_ind1_bit28_role_fields (w : Nat) (src : Bool)
    (h30 : w >>> 30 = 0) (h27 : w &&& 0x08000000 = 0x08000000) :
    "unconstrained_power" ∈
      (pdo2strFields w true src).map DecodedField.name ∧
    ("usb_suspend_supported" ∈
      (pdo2strFields w true src).map DecodedField.name ↔ src = true) ∧
    ("higher_capability" ∈
      (pdo2strFields w true src).map DecodedField.name ↔ src = false) ∧
    (pdo2strFields w true src).find?
        (fun f => f.name == "unconstrained_power") =
      some { name := "unconstrained_power", raw16 := 1, value := "=1\n" } := by
  have hbit : field_raw16 w ⟨27, 1, 0, 2⟩ = 1 := by
    show ((w >>> 27) &&& 1) % 65536 = 1
    rw [bit27_of_and w h27]
  have hmk : mkPdoField w ⟨27, 1, 0, 2⟩ =
      { name := "unconstrained_power", raw16 := 1, value := "=1\n" } := by
    unfold mkPdoField
    rw [hbit]
    rfl
  have hfind : (pdo2strFields w true src).find?
      (fun f => f.name == "unconstrained_power") =
      some { name := "unconstrained_power", raw16 := 1, value := "=1\n" } := by
    rw [fixed_ind1_find_ucp w h30 src, hmk]
  cases src
  · exact ⟨by rw [fixed_ind1_snk_names w h30]; decide,
      by rw [fixed_ind1_snk_names w h30]; decide,
      by rw [fixed_ind1_snk_names w h30]; decide, hfind⟩
  · exact ⟨by rw [fixed_ind1_src_names w h30]; decide,
      by rw [fixed_ind1_src_names w h30]; decide,
      by rw [fixed_ind1_src_names w h30]; decide, hfind⟩

/-- C5 witness: word 0x08000000 (bit 27 set, bits 31..30 clear), source
role. -/
theorem fixed_ind1_bit28_role_fields_witness :
    "unconstrained_power" ∈
      (pdo2strFields 0x08000000 true true).map DecodedField.name ∧
    ("usb_suspend_supported" ∈
      (pdo2strFields 0x08000000 true true).map DecodedField.name ↔
        true = true) ∧
    ("higher_capability" ∈
      (pdo2strFields 0x08000000 true true).map DecodedField.name ↔
        true = false) ∧
    (pdo2strFields 0x08000000 true true).find?
        (fun f => f.name == "unconstrained_power") =
      some { name := "unconstrained_power", raw16 := 1, value := "=1\n" } :=
  fixed_ind1_bit28_role_fields 0x08000000 true (by decide) (by decide)

/-- C6: encode-then-decode round-trip of the Fixed-PDO voltage field:
for any voltage that is an exact multiple of 50 mV within the 10-bit
range, the decoded `voltage` field holds raw value mv/50 and the display
value is the mV value re-expressed in hundredths of a volt (mv/10),
whatever the rest of the attribute map contains. -/
theorem fixed_voltage_round_trip (m : strstr_m) (src : Bool) (ind mv : Nat)
    (hmv : get_millivolts "voltage" m = mv) (h50 : mv % 50 = 0)
    (hle : mv ≤ 51150) :
    (pdo2strFields (build_raw_pdo .pdo_fixed src ind m) (ind == 1)
        src).find? (fun f => f.name == "voltage") =
      some { name := "voltage", raw16 := mv / 50,
             value := fmt_u_02u (mv / 10) } := by
  have h30 : build_raw_pdo .pdo_fixed src ind m >>> 30 = 0 :=
    build_fixed_sr30 src ind m
  rw [fixed_find_voltage _ h30]
  have hv : (build_raw_pdo .pdo_fixed src ind m >>> 10) &&& 1023 = mv / 50 := by
    rw [build_fixed_voltage_bits, hmv]
    have hlt : mv / 50 < 2 ^ 10 := by
      norm_num
      omega
    rw [show (1023 : Nat) = 2 ^ 10 - 1 by norm_num,
      Nat.and_pow_two_sub_one_of_lt_two_pow hlt]
  have hmk : mkPdoField (build_raw_pdo .pdo_fixed src ind m) ⟨10, 10, 5, 9⟩ =
      { name := "voltage",
        raw16 :=
          ((build_raw_pdo .pdo_fixed src ind m >>> 10) &&& 1023) % 65536,
        value := pdo_field_value 5
          (((build_raw_pdo .pdo_fixed src ind m >>> 10) &&& 1023)
            % 65536) } := rfl
  rw [hmk, hv]
  have hmod : mv / 50 % 65536 = mv / 50 := Nat.mod_eq_of_lt (by omega)
  rw [hmod]
  have hval : pdo_field_value 5 (mv / 50) = fmt_u_02u (mv / 10) := by
    unfold pdo_field_value
    rw [if_pos (by decide)]
    congr 1
    omega
  rw [hval]

/-- C6 witness: a 5 V / 50 mV-step Fixed capability round-trips to a
voltage field of raw 100 and display 5.00 V. -/
theorem fixed_voltage_round_trip_witness :
    (pdo2strFields (build_raw_pdo .pdo_fixed true 2 [("voltage", "5000mV")])
        ((2 : Nat) == 1) true).find? (fun f => f.name == "voltage") =
      some { name := "voltage", raw16 := 5000 / 50,
             value := fmt_u_02u (5000 / 10) } :=
  fixed_voltage_round_trip [("voltage", "5000mV")] true 2 5000 (by decide)
    (by decide) (by decide)

/-- C7 counterexample: the reference letter B selects the Battery RDO
block (table row 40), not the FixedOrVariable block (row 30) — a
Battery-reference decode reports power fields, not current fields. -/
theorem rdo_ref_battery_not_fixed_block :
    rdo_ref_of_char 'B' = some .pdo_battery ∧
    rdo_start_index .pdo_battery = some 40 ∧
    rdo_start_index .pdo_fixed = some 30 ∧
    "maximum_operating_power" ∈
      (rdo2strFields 0 .pdo_battery).map DecodedField.name ∧
    "maximum_operating_current" ∉
      (rdo2strFields 0 .pdo_battery).map DecodedField.name := by
  decide

/-- C7 (amended): the single-letter codes map F to Fixed, B to Battery,
V to Variable, P to Pps, A and E to EprAvs, and S to SprAvs; F and V
share the FixedOrVariable block and SprAvs/EprAvs share the AVS block,
but B selects the distinct Battery block. -/
theorem rdo_ref_letter_map :
    rdo_ref_of_char 'F' = some .pdo_fixed ∧
    rdo_ref_of_char 'B' = some .pdo_battery ∧
    rdo_ref_of_char 'V' = some .pdo_variable ∧
    rdo_ref_of_char 'P' = some .apdo_pps ∧
    rdo_ref_of_char 'A' = some .apdo_epr_avs ∧
    rdo_ref_of_char 'E' = some .apdo_epr_avs ∧
    rdo_ref_of_char 'S' = some .apdo_spr_avs ∧
    rdo_start_index .pdo_fixed = rdo_start_index .pdo_variable ∧
    rdo_start_index .apdo_spr_avs = rdo_start_index .apdo_epr_avs ∧
    rdo_start_index .pdo_battery ≠ rdo_start_index .pdo_fixed := by
  decide

/-- C8: the HalvedQuarterVolt (mult 0xff) display of any 11-bit raw
field value is ((raw >> 1) * 25) rendered as hundredths: whole part
v/100, a dot, and the two-digit zero-padded fraction v%100. -/
theorem hqv_display (raw : Nat) (h : raw < 2048) :
    rdo_field_value 0xff raw =
      "=" ++ toString (((raw >>> 1) * 25) / 100) ++ "." ++
        pad2 (((raw >>> 1) * 25) % 100) ++ "\n" := by
  have hr : raw >>> 1 < 1024 := by
    have e : raw >>> 1 = raw / 2 := by
      rw [Nat.shiftRight_eq_div_pow]
    omega
  have hlt : (raw >>> 1) * 25 < 65536 := by omega
  have h1 : rdo_field_value 0xff raw =
      fmt_u_02u (((raw >>> 1) * 25) % 65536) := rfl
  rw [h1, Nat.mod_eq_of_lt hlt]
  rfl

/-- C8 witness: raw 40 halves to 20, scales to 500 hundredths and is
displayed as 5.00. -/
theorem hqv_display_witness :
    (40 : Nat) < 2048 ∧
    rdo_field_value 0xff 40 =
      "=" ++ toString ((((40 : Nat) >>> 1) * 25) / 100) ++ "." ++
        pad2 ((((40 : Nat) >>> 1) * 25) % 100) ++ "\n" ∧
    rdo_field_value 0xff 40 = "=5.00\n" :=
  ⟨by decide, hqv_display 40 (by decide), by decide⟩

/-- C9 counterexample: malformed values do not contribute 0.  A value
with the wrong unit suffix is not treated as malformed — `sscanf("%umV")`
counts the leading `%u` conversion before the literal suffix is
checked, so a voltage of "5000mA" still contributes 5000/50 = 100 to
the voltage field — and a sign-prefixed value converts too: `%u`
matches an optionally signed integer, so "-5mV" yields 2 ^ 32 - 5 =
4294967291 and contributes 81 to the masked voltage field instead of
the 0 the claim requires. -/
theorem wrong_suffix_still_contributes :
    get_millivolts "voltage" [("voltage", "5000mA")] = 5000 ∧
    (build_raw_pdo .pdo_fixed true 2 [("voltage", "5000mA")] >>> 10)
      &&& 1023 = 100 ∧
    get_millivolts "voltage" [("voltage", "-5mV")] = 4294967291 ∧
    (build_raw_pdo .pdo_fixed true 2 [("voltage", "-5mV")] >>> 10)
      &&& 1023 = 81 := by
  decide

/-- C9 (amended): an attribute that is absent from the map, or whose
value has no decimal digits after the optional white space and sign (so
the `%u` conversion fails), contributes 0 through every reader, and the
encode of the remaining fields completes with the voltage field equal
to the reader's value regardless — but a value whose leading number
does convert is *not* zeroed, even with a wrong or missing unit suffix
or a `-` sign that wraps modulo 2 ^ 32 (see the counterexample),
because the suffix is never verified and the sign is accepted. -/
theorem attr_soft_fail_contributes_zero (nm : String) (m1 m2 : strstr_m)
    (s : String) (h1 : m1.lookup nm = none) (h2 : m2.lookup nm = some s)
    (hs : scan_u s = none) :
    get_millivolts nm m1 = 0 ∧ get_milliamps nm m1 = 0 ∧
    get_milliwatts nm m1 = 0 ∧ get_unitless nm m1 = 0 ∧
    get_millivolts nm m2 = 0 ∧ get_milliamps nm m2 = 0 ∧
    get_milliwatts nm m2 = 0 ∧ get_unitless nm m2 = 0 ∧
    (∀ (m3 : strstr_m) (src : Bool) (ind : Nat),
      (build_raw_pdo .pdo_fixed src ind m3 >>> 10) &&& 1023 =
        (get_millivolts "voltage" m3 / 50) &&& 1023) := by
  refine ⟨?_, ?_, ?_, ?_, ?_, ?_, ?_, ?_, ?_⟩
  · simp [get_millivolts, h1]
  · simp [get_milliamps, h1]
  · simp [get_milliwatts, h1]
  · simp [get_unitless, h1]
  · simp [get_millivolts, h2, hs]
  · simp [get_milliamps, h2, hs]
  · simp [get_milliwatts, h2, hs]
  · simp [get_unitless, h2, hs]
  · intro m3 src ind
    exact build_fixed_voltage_bits src ind m3

/-- C9 witness: an empty map and a map whose voltage value has no
leading number. -/
theorem attr_soft_fail_contributes_zero_witness :
    get_millivolts "voltage" ([] : strstr_m) = 0 ∧
    get_milliamps "voltage" ([] : strstr_m) = 0 ∧
    get_milliwatts "voltage" ([] : strstr_m) = 0 ∧
    get_unitless "voltage" ([] : strstr_m) = 0 ∧
    get_millivolts "voltage" [("voltage", "abc")] = 0 ∧
    get_milliamps "voltage" [("voltage", "abc")] = 0 ∧
    get_milliwatts "voltage" [("voltage", "abc")] = 0 ∧
    get_unitless "voltage" [("voltage", "abc")] = 0 ∧
    (∀ (m3 : strstr_m) (src : Bool) (ind : Nat),
      (build_raw_pdo .pdo_fixed src ind m3 >>> 10) &&& 1023 =
        (get_millivolts "voltage" m3 / 50) &&& 1023) :=
  attr_soft_fail_contributes_zero "voltage" [] [("voltage", "abc")] "abc"
    (by decide) (by decide) (by decide)

/-- C10: in the source-role Fixed object-index-1 decode, the
`ContinueGroup`-flagged fast-role-swap row (sink-only) is omitted from
the output, yet its continue flag was latched before the role filter
ran, so traversal crosses the next `GroupStart` and the source decode
still emits `peak_current`, `voltage` and `maximum_current`. -/
theorem cont_flag_taken_before_role_filter (w : Nat) (h : w >>> 30 = 0) :
    "fast_role_swap" ∉ (pdo2strFields w true true).map DecodedField.name ∧
    "peak_current" ∈ (pdo2strFields w true true).map DecodedField.name ∧
    "voltage" ∈ (pdo2strFields w true true).map DecodedField.name ∧
    "maximum_current" ∈ (pdo2strFields w true true).map DecodedField.name := by
  rw [fixed_ind1_src_names w h]
  decide

/-- C10 witness: word 0 decoded as Fixed, object index 1, source. -/
theorem cont_flag_taken_before_role_filter_witness :
    "fast_role_swap" ∉ (pdo2strFields 0 true true).map DecodedField.name ∧
    "peak_current" ∈ (pdo2strFields 0 true true).map DecodedField.name ∧
    "voltage" ∈ (pdo2strFields 0 true true).map DecodedField.name ∧
    "maximum_current" ∈ (pdo2strFields 0 true true).map DecodedField.name :=
  cont_flag_taken_before_role_filter 0 (by decide)

end Lsucpd
